import Mathlib

/-!
# Verification of the QuickVC audio-conversion utilities

Shallow embedding of the three converter scripts
(`m4a_to_wav.py`, `m4a_converter_fallback.py`, `m4a_ffmpeg_converter.py`).

External decoding backends (librosa, pydub, the ffmpeg subprocess, audioread)
are modelled as black-box functions supplied by an environment, exactly as the
spec treats them (`decode(path) -> samples`, etc.).  The filesystem is a total
map from paths to byte contents; each conversion threads the filesystem so that
writes performed by one call are visible to the next.  Print statements are
modelled as a structured log, and the order in which backends are attempted is
recorded in an explicit trace.
-/

namespace QuickVC

/-! ## Path helpers: `pathlib.Path.suffix`, `.stem` and `.with_suffix` -/

/-- The final path component (`Path(p).name`): everything after the last `/`. -/
def pathName (p : String) : String :=
  String.mk ((p.data.reverse.takeWhile (fun c => c ≠ '/')).reverse)

/-- Index of the last `.` in a character list, if any. -/
def lastDotIdx (cs : List Char) : Option Nat :=
  match cs.reverse.findIdx? (fun c => c = '.') with
  | none => none
  | some j => some (cs.length - 1 - j)

/-- `Path(p).suffix`: the extension of the final component, taken from its last
dot — empty unless that dot sits strictly inside the name
(`0 < i < len(name) - 1` in the pathlib source). -/
def pathSuffix (p : String) : String :=
  let name := (pathName p).data
  match lastDotIdx name with
  | none => ""
  | some i => if 0 < i ∧ i < name.length - 1 then String.mk (name.drop i) else ""

/-- `Path(p).stem`: the final component minus `pathSuffix`. -/
def pathStem (p : String) : String :=
  let name := pathName p
  String.mk (name.data.take (name.data.length - (pathSuffix p).data.length))

/-- `str(Path(p).with_suffix(newSuffix))`: drop the old suffix of the final
component (when there is one) and append the new suffix. -/
def withSuffix (p : String) (newSuffix : String) : String :=
  let old := pathSuffix p
  String.mk (p.data.take (p.data.length - old.data.length)) ++ newSuffix

/-- ASCII lower-casing, as `str.lower()` behaves on extension strings. -/
def strLower (s : String) : String :=
  String.mk (s.data.map Char.toLower)

/-! ## Filesystem and backend environment for `m4a_to_wav.py` -/

/-- Opaque file contents (a byte string). -/
def Content : Type := List Int

instance : DecidableEq Content := by unfold Content; infer_instance

instance : Inhabited Content := ⟨([] : List Int)⟩

/-- The filesystem: a total map from path to contents (a missing file is
whatever content the environment chooses to reject). -/
def Fs : Type := String → Content

/-- Decoded audio samples, as produced by a backend. -/
def Audio : Type := List Int

instance : DecidableEq Audio := by unfold Audio; infer_instance

/-- Outcome of the ffmpeg subprocess on the input file's contents:
either a Python-level exception (e.g. `ffmpeg` not installed), or a completed
run with a return code, captured stderr, and the contents it wrote to the
output path (used only when the return code is 0). -/
inductive FfmpegOutcome where
  | ex (msg : String)
  | run (returncode : Int) (stderr : String) (written : Content)
deriving DecidableEq

/-- The black-box backends of `convert_any_audio_to_wav`, as deterministic
functions of the input file's contents and the requested sample rate. -/
structure Env where
  /-- `librosa.load(path, sr, mono=True)` followed by `sf.write`:
  decoded samples, or the exception message. -/
  librosa : Content → Nat → Except String Audio
  /-- `pydub.AudioSegment.from_file(path, format="m4a")` then
  `.set_channels(1).set_frame_rate(sr)`: decoded samples or exception. -/
  pydub : Content → Nat → Except String Audio
  /-- the `ffmpeg -i in -ar sr -ac 1 -y out` subprocess. -/
  ffmpeg : Content → Nat → FfmpegOutcome
  /-- `sf.write(path, audio, sr)`: the WAV bytes written for given samples. -/
  encode : Audio → Nat → Content

/-- The backend strategies of `convert_any_audio_to_wav`, in source order. -/
inductive Backend where
  | librosa
  | pydub
  | ffmpeg
deriving DecidableEq

/-- The messages printed by `convert_any_audio_to_wav`, structured. -/
inductive LogMsg where
  | tryingLibrosa (input : String)
  | librosaFailed (msg : String)
  | tryingPydub (input : String)
  | pydubFailed (msg : String)
  | tryingFfmpeg (input : String)
  | ffmpegFailed (stderr : String)
  | ffmpegNotAvailable (msg : String)
  | converted (input output : String)
  | allFailed (input : String)
deriving DecidableEq

/-- Result of one call to `convert_any_audio_to_wav`: the returned value
(`output_path` or `None`), the output path the call settled on, the backends
attempted in order, and the printed log. -/
structure ConvResult where
  result : Option String
  outputUsed : String
  attempts : List Backend
  log : List LogMsg
deriving DecidableEq

/-- Update the filesystem at one path. -/
def fsWrite (fs : Fs) (p : String) (c : Content) : Fs :=
  fun q => if q = p then c else fs q

/-- The final, ffmpeg-subprocess step of `convert_any_audio_to_wav` (Method 3):
reached only after the earlier methods failed, with their attempts `att` and
printed messages `log2` accumulated.  A zero return code succeeds (ffmpeg
itself wrote the output file); a non-zero code or an exception falls through to
the overall failure. -/
def tryFfmpegStep (env : Env) (fs : Fs) (input_path output_path : String)
    (att : List Backend) (log2 : List LogMsg) (sample_rate : Nat) : ConvResult × Fs :=
  match env.ffmpeg (fs input_path) sample_rate with
  | .run rc stderr written =>
      if rc = 0 then
        ({ result := some output_path, outputUsed := output_path,
           attempts := att ++ [.ffmpeg],
           log := log2 ++ [.tryingFfmpeg input_path,
                           .converted input_path output_path] },
         fsWrite fs output_path written)
      else
        ({ result := none, outputUsed := output_path,
           attempts := att ++ [.ffmpeg],
           log := log2 ++ [.tryingFfmpeg input_path,
                           .ffmpegFailed stderr, .allFailed input_path] },
         fs)
  | .ex e3 =>
      ({ result := none, outputUsed := output_path,
         attempts := att ++ [.ffmpeg],
         log := log2 ++ [.tryingFfmpeg input_path,
                         .ffmpegNotAvailable e3, .allFailed input_path] },
       fs)

/-- `convert_any_audio_to_wav(input_path, output_path=None, sample_rate=16000)`
from `m4a_to_wav.py`: default the output path, then try librosa; on exception
try pydub when the (lower-cased) extension is `.m4a`; then try the ffmpeg
subprocess; return the output path on the first success, `None` if all fail. -/
def convert_any_audio_to_wav (env : Env) (fs : Fs) (input_path : String)
    (output_path? : Option String) (sample_rate : Nat) : ConvResult × Fs :=
  let output_path := output_path?.getD (withSuffix input_path ".wav")
  let file_ext := strLower (pathSuffix input_path)
  match env.librosa (fs input_path) sample_rate with
  | .ok audio =>
      ({ result := some output_path, outputUsed := output_path,
         attempts := [.librosa],
         log := [.tryingLibrosa input_path, .converted input_path output_path] },
       fsWrite fs output_path (env.encode audio sample_rate))
  | .error e1 =>
      let log1 : List LogMsg := [.tryingLibrosa input_path, .librosaFailed e1]
      if file_ext = ".m4a" then
        match env.pydub (fs input_path) sample_rate with
        | .ok audio =>
            ({ result := some output_path, outputUsed := output_path,
               attempts := [.librosa, .pydub],
               log := log1 ++ [.tryingPydub input_path,
                               .converted input_path output_path] },
             fsWrite fs output_path (env.encode audio sample_rate))
        | .error e2 =>
            tryFfmpegStep env fs input_path output_path [.librosa, .pydub]
              (log1 ++ [.tryingPydub input_path, .pydubFailed e2]) sample_rate
      else
        tryFfmpegStep env fs input_path output_path [.librosa] log1 sample_rate

/-! ## Batch driver `convert_directory_librosa` -/

/-- The glob patterns of `convert_directory_librosa`, in source order
(`['*.mp3', '*.m4a', '*.flac', '*.ogg', '*.wav', '*.aac']`), kept as the
extension each pattern requires. -/
def supported_formats : List String := [".mp3", ".m4a", ".flac", ".ogg", ".wav", ".aac"]

/-- Whether a directory entry matches the pattern `*<ext>`:
`pathlib.Path.glob` is case-sensitive, non-recursive, and uses fnmatch
semantics, so `*` matches any run of characters — including a leading dot —
and the pattern accepts exactly the names ending in the extension. -/
def globMatch (ext : String) (name : String) : Bool :=
  name.data.drop (name.data.length - ext.data.length) == ext.data

/-- The matched files, pattern by pattern, as `audio_files.extend(...)` builds
them (each pattern keeps the directory's listing order). -/
def audioFiles (files : List String) : List String :=
  supported_formats.flatMap (fun ext => files.filter (globMatch ext))

def joinPath (dir name : String) : String := dir ++ "/" ++ name

/-- The per-file output `output_path / (audio_file.stem + ".wav")`. -/
def wavOut (out_dir : String) (file : String) : String :=
  joinPath out_dir (pathStem file ++ ".wav")

/-- The `for audio_file in audio_files` loop: every file is converted in turn,
threading the filesystem, with no early exit on failure. -/
def runBatch (env : Env) (sample_rate : Nat) (out_dir : String) :
    Fs → List String → List (String × Option String) × Fs
  | fs, [] => ([], fs)
  | fs, f :: rest =>
      let step := convert_any_audio_to_wav env fs f (some (wavOut out_dir f)) sample_rate
      let next := runBatch env sample_rate out_dir step.2 rest
      ((f, step.1.result) :: next.1, next.2)

/-- `convert_directory_librosa(input_dir, output_dir=None, sample_rate=16000)`:
glob the supported patterns in `input_dir` (non-recursive), then run the
per-file converter on each match with output `out_dir/stem.wav`. -/
def convert_directory_librosa (env : Env) (fs : Fs) (files : List String)
    (input_dir : String) (output_dir? : Option String) (sample_rate : Nat) :
    List (String × Option String) × Fs :=
  let out_dir := output_dir?.getD input_dir
  runBatch env sample_rate out_dir fs ((audioFiles files).map (joinPath input_dir))

/-! ## `m4a_converter_fallback.py` -/

/-- What `audioread.audio_open` exposes: the native sample rate, the channel
count, and the interleaved int16 samples obtained from joining all frames
(`np.frombuffer(b''.join(frames), dtype=np.int16)`). -/
structure ArFile where
  samplerate : Nat
  channels : Nat
  frames : List Int
deriving DecidableEq

/-- Backends of `m4a_converter_fallback.py`: `librosa.load`,
`audioread.audio_open`, and `librosa.resample`, as black boxes keyed on the
input path. -/
structure FbEnv where
  librosaLoad : String → Nat → Except String (List ℚ)
  audioreadOpen : String → Except String ArFile
  resample : List ℚ → Nat → Nat → List ℚ

/-- `int16 -> float32` scaling: `astype(np.float32) / 32768.0` (exact in ℚ). -/
def int16ToFloat (s : Int) : ℚ := (s : ℚ) / 32768

/-- `audio.reshape((-1, 2)).mean(axis=1)`: average each consecutive pair. -/
def stereoMeanQ : List ℚ → List ℚ
  | a :: b :: rest => (a + b) / 2 :: stereoMeanQ rest
  | _ => []

/-- Result of `convert_m4a_with_audioread`: the returned value, whether
`librosa.resample` was invoked, the value of the `audio` variable right after
the channel-handling step (when execution reached that point), and the
`(path, samples)` writes performed. -/
structure ArResult where
  result : Option String
  resampled : Bool
  downmixed : Option (List ℚ)
  written : List (String × List ℚ)
deriving DecidableEq

/-- `convert_m4a_with_audioread(input_path, output_path=None, sample_rate=16000)`:
open with audioread, down-mix only the two-channel case via the
reshape-and-mean, resample only when the native rate differs from the target,
write, and turn any exception into a `None` return. -/
def convert_m4a_with_audioread (env : FbEnv) (input_path : String)
    (output_path? : Option String) (sample_rate : Nat) : ArResult :=
  let output_path := output_path?.getD (withSuffix input_path ".wav")
  match env.audioreadOpen input_path with
  | .error _ => { result := none, resampled := false, downmixed := none, written := [] }
  | .ok f =>
      let raw : List ℚ := f.frames.map int16ToFloat
      -- `reshape((-1, 2))` raises ValueError on an odd sample count; the
      -- outer `except Exception` turns that into a `None` return.
      if f.channels = 2 ∧ f.frames.length % 2 ≠ 0 then
        { result := none, resampled := false, downmixed := none, written := [] }
      else
        let audio := if f.channels = 2 then stereoMeanQ raw else raw
        if f.samplerate ≠ sample_rate then
          { result := some output_path, resampled := true, downmixed := some audio,
            written := [(output_path, env.resample audio f.samplerate sample_rate)] }
        else
          { result := some output_path, resampled := false, downmixed := some audio,
            written := [(output_path, audio)] }

/-- The decode operations performed by the fallback converter, with their
arguments, in invocation order. -/
inductive DecodeOp where
  | librosaLoadOp (path : String) (sr : Nat)
  | audioreadOpenOp (path : String)
deriving DecidableEq

/-- Result of `convert_with_simple_fallback`: the returned value, the output
path settled on, and the trace of decode operations. -/
structure FbResult where
  result : Option String
  outputUsed : String
  ops : List DecodeOp
deriving DecidableEq

/-- `backends = ['soundfile', 'audioread']`. -/
def fallback_backends : List String := ["soundfile", "audioread"]

/-- The `for backend in backends` loop of `convert_with_simple_fallback`.
The loop variable is only printed: every iteration performs the identical
`librosa.load(input_path, sr=sample_rate, mono=True)` call, so a failing first
iteration is followed by a second invocation of the same decode. -/
def tryLibrosaBackends (env : FbEnv) (input_path output_path : String)
    (sample_rate : Nat) : List String → Option String × List DecodeOp
  | [] => (none, [])
  | _backend :: rest =>
      match env.librosaLoad input_path sample_rate with
      | .ok _ => (some output_path, [.librosaLoadOp input_path sample_rate])
      | .error _ =>
          let (r, ops) := tryLibrosaBackends env input_path output_path sample_rate rest
          (r, .librosaLoadOp input_path sample_rate :: ops)

/-- `convert_with_simple_fallback(input_path, output_path=None, sample_rate=16000)`:
default the output path, run the backends loop, then fall back to
`convert_m4a_with_audioread(input_path, output_path, sample_rate)`. -/
def convert_with_simple_fallback (env : FbEnv) (input_path : String)
    (output_path? : Option String) (sample_rate : Nat) : FbResult :=
  let output_path := output_path?.getD (withSuffix input_path ".wav")
  match tryLibrosaBackends env input_path output_path sample_rate fallback_backends with
  | (some r, ops) => { result := some r, outputUsed := output_path, ops := ops }
  | (none, ops) =>
      let ar := convert_m4a_with_audioread env input_path (some output_path) sample_rate
      { result := ar.result, outputUsed := output_path,
        ops := ops ++ [.audioreadOpenOp input_path] }

/-! ## `m4a_ffmpeg_converter.py` -/

/-- Outcome of a `subprocess.run` call: a completed process with its return
code and captured stderr, or the `FileNotFoundError` raised when the
executable is absent from the search path. -/
inductive RunOutcome where
  | completed (returncode : Int) (stderr : String)
  | fileNotFound
deriving DecidableEq

/-- The subprocess facility, as a black box keyed on the argument vector. -/
structure SysEnv where
  run : List String → RunOutcome

def ffmpegVersionCmd : List String := ["ffmpeg", "-version"]

def ffmpegConvertCmd (input_path output_path : String) (sample_rate : Nat) : List String :=
  ["ffmpeg", "-i", input_path, "-ar", toString sample_rate, "-ac", "1", "-y", output_path]

/-- `check_ffmpeg()`: run `ffmpeg -version`, return `returncode == 0`, and
catch `FileNotFoundError` as `False`. -/
def check_ffmpeg (env : SysEnv) : Bool :=
  match env.run ffmpegVersionCmd with
  | .completed rc _ => rc == 0
  | .fileNotFound => false

/-- Observable effects of one `convert_m4a_to_wav` call in
`m4a_ffmpeg_converter.py`. -/
structure FfResult where
  /-- the returned boolean -/
  success : Bool
  /-- whether `install_ffmpeg_instructions()` printed -/
  printedInstructions : Bool
  /-- whether the `output_path is None` defaulting line executed -/
  defaultComputed : Bool
  /-- the output path in effect when the conversion ran, if it ran -/
  outputUsed : Option String
  /-- whether the ffmpeg conversion subprocess was launched -/
  ranConversion : Bool
  /-- the output file written, when the conversion succeeded -/
  wrote : Option String
deriving DecidableEq

/-- `convert_m4a_to_wav(input_path, output_path=None, sample_rate=16000)` from
`m4a_ffmpeg_converter.py`: bail out (printing instructions) when `check_ffmpeg`
fails, otherwise default the output path, launch ffmpeg, and report
`returncode == 0`; any exception yields `False`. -/
def convert_m4a_to_wav (env : SysEnv) (input_path : String)
    (output_path? : Option String) (sample_rate : Nat) : FfResult :=
  if check_ffmpeg env = false then
    { success := false, printedInstructions := true, defaultComputed := false,
      outputUsed := none, ranConversion := false, wrote := none }
  else
    let defaultComputed := output_path?.isNone
    let output_path := output_path?.getD (withSuffix input_path ".wav")
    match env.run (ffmpegConvertCmd input_path output_path sample_rate) with
    | .completed rc _ =>
        if rc = 0 then
          { success := true, printedInstructions := false,
            defaultComputed := defaultComputed, outputUsed := some output_path,
            ranConversion := true, wrote := some output_path }
        else
          { success := false, printedInstructions := false,
            defaultComputed := defaultComputed, outputUsed := some output_path,
            ranConversion := true, wrote := none }
    | .fileNotFound =>
        { success := false, printedInstructions := false,
          defaultComputed := defaultComputed, outputUsed := some output_path,
          ranConversion := true, wrote := none }

/-! ## Success predicates and the spec-side strategy iterator -/

/-- Whether an `Except` computation succeeded. -/
def exceptOk {ε α : Type} : Except ε α → Bool
  | .ok _ => true
  | .error _ => false

/-- Whether the ffmpeg subprocess strategy succeeds (clean exit). -/
def ffmpegOkB (env : Env) (c : Content) (sr : Nat) : Bool :=
  match env.ffmpeg c sr with
  | .run rc _ _ => rc == 0
  | .ex _ => false

/-- Whether one backend strategy succeeds on the given file contents. -/
def backendSucceeds (env : Env) (c : Content) (sr : Nat) : Backend → Bool
  | .librosa => exceptOk (env.librosa c sr)
  | .pydub => exceptOk (env.pydub c sr)
  | .ffmpeg => ffmpegOkB env c sr

/-- The fixed priority order of `convert_any_audio_to_wav`: librosa, then
pydub (for `.m4a` inputs only), then the ffmpeg subprocess. -/
def priorityOrder (input_path : String) : List Backend :=
  [.librosa] ++ (if strLower (pathSuffix input_path) = ".m4a" then [.pydub] else []) ++ [.ffmpeg]

/-- The spec's strategy iterator, written from its words: attempt the ordered
strategies one by one and stop right after the first success (so nothing later
is attempted); on failure proceed to the next. -/
def specAttempts (succ : Backend → Bool) : List Backend → List Backend
  | [] => []
  | b :: rest => if succ b then [b] else b :: specAttempts succ rest

/-- Whether some backend in the priority order can convert the file. -/
def canDecode (env : Env) (c : Content) (input_path : String) (sr : Nat) : Bool :=
  (priorityOrder input_path).any (backendSucceeds env c sr)

/-- The contents `convert_any_audio_to_wav` leaves at its output path, as a
function of the input file's contents alone: `some` of the encoded samples
(or what ffmpeg wrote) when the first succeeding strategy writes, `none` when
every strategy fails. -/
def writtenContent (env : Env) (c : Content) (input_path : String) (sr : Nat) : Option Content :=
  match env.librosa c sr with
  | .ok a => some (env.encode a sr)
  | .error _ =>
      if strLower (pathSuffix input_path) = ".m4a" then
        match env.pydub c sr with
        | .ok a => some (env.encode a sr)
        | .error _ =>
            match env.ffmpeg c sr with
            | .run rc _ w => if rc = 0 then some w else none
            | .ex _ => none
      else
        match env.ffmpeg c sr with
        | .run rc _ w => if rc = 0 then some w else none
        | .ex _ => none

/-- The `ConvResult` component of `convert_any_audio_to_wav`, as a function of
the input file's contents alone (the control flow repeated without the
filesystem effect; tied to the converter by `convert_any_fst`). -/
def convResult (env : Env) (c : Content) (input_path : String)
    (output_path? : Option String) (sample_rate : Nat) : ConvResult :=
  let output_path := output_path?.getD (withSuffix input_path ".wav")
  let file_ext := strLower (pathSuffix input_path)
  match env.librosa c sample_rate with
  | .ok _ =>
      { result := some output_path, outputUsed := output_path,
        attempts := [.librosa],
        log := [.tryingLibrosa input_path, .converted input_path output_path] }
  | .error e1 =>
      let log1 : List LogMsg := [.tryingLibrosa input_path, .librosaFailed e1]
      let ffStep : List Backend → List LogMsg → ConvResult :=
        fun att log2 =>
          match env.ffmpeg c sample_rate with
          | .run rc stderr _ =>
              if rc = 0 then
                { result := some output_path, outputUsed := output_path,
                  attempts := att ++ [.ffmpeg],
                  log := log2 ++ [.tryingFfmpeg input_path,
                                  .converted input_path output_path] }
              else
                { result := none, outputUsed := output_path,
                  attempts := att ++ [.ffmpeg],
                  log := log2 ++ [.tryingFfmpeg input_path,
                                  .ffmpegFailed stderr, .allFailed input_path] }
          | .ex e3 =>
              { result := none, outputUsed := output_path,
                attempts := att ++ [.ffmpeg],
                log := log2 ++ [.tryingFfmpeg input_path,
                                .ffmpegNotAvailable e3, .allFailed input_path] }
      if file_ext = ".m4a" then
        match env.pydub c sample_rate with
        | .ok _ =>
            { result := some output_path, outputUsed := output_path,
              attempts := [.librosa, .pydub],
              log := log1 ++ [.tryingPydub input_path,
                              .converted input_path output_path] }
        | .error e2 =>
            ffStep [.librosa, .pydub]
              (log1 ++ [.tryingPydub input_path, .pydubFailed e2])
      else
        ffStep [.librosa] log1

/-- The spec's down-mix, written from its words: with `c` interleaved
channels, each mono output sample is the arithmetic mean of the `c`
corresponding samples (one per channel) of that frame. -/
def specChannelMean (c : Nat) (xs : List ℚ) : List ℚ :=
  (List.range (xs.length / c)).map
    (fun i => (((List.range c).map (fun j => xs.getD (c * i + j) 0)).sum) / (c : ℚ))

/-! ## Concrete environments used to instantiate the theorems -/

/-- The empty filesystem. -/
def fs0 : Fs := fun _ => ([] : List Int)

/-- An environment whose backends all fail, with distinct messages. -/
def envAllFail : Env where
  librosa := fun _ _ => .error "librosa: format not recognised"
  pydub := fun _ _ => .error "pydub: decoder missing"
  ffmpeg := fun _ _ => .run 1 "ffmpeg: invalid data found" []
  encode := fun a _ => a

/-- A second all-failing environment with different error messages. -/
def envAllFail2 : Env where
  librosa := fun _ _ => .error "librosa: other"
  pydub := fun _ _ => .error "pydub: other"
  ffmpeg := fun _ _ => .ex "ffmpeg: not installed"
  encode := fun a _ => a

/-- An environment whose librosa backend succeeds on every input. -/
def envLibrosaOk : Env where
  librosa := fun c _ => .ok c
  pydub := fun _ _ => .error "unused"
  ffmpeg := fun _ _ => .ex "unused"
  encode := fun a _ => a

/-- An environment whose librosa backend succeeds exactly on contents `[1]`. -/
def envContentPicky : Env where
  librosa := fun c _ => if c = ([1] : List Int) then .ok c else .error "undecodable"
  pydub := fun _ _ => .error "pydub cannot decode"
  ffmpeg := fun _ _ => .ex "ffmpeg missing"
  encode := fun a _ => a

/-- A filesystem in which only `d/good.m4a` holds decodable contents. -/
def fsPicky : Fs := fun p => if p = "d/good.m4a" then ([1] : List Int) else ([0] : List Int)

/-- An environment whose librosa decode depends on the input contents in a way
that is not a projection: re-decoding a written output yields new samples. -/
def envSelfClobber : Env where
  librosa := fun c _ => .ok (if c = ([0] : List Int) then [1] else [2])
  pydub := fun _ _ => .error "unused"
  ffmpeg := fun _ _ => .ex "unused"
  encode := fun a _ => a

/-- A filesystem whose every file holds the contents `[0]`. -/
def fsZero : Fs := fun _ => ([0] : List Int)

/-- A fallback-converter environment whose `librosa.load` always fails and
whose audioread backend yields a stereo file already at 16000 Hz. -/
def fbEnvStereo : FbEnv where
  librosaLoad := fun _ _ => .error "librosa failed"
  audioreadOpen := fun _ => .ok { samplerate := 16000, channels := 2, frames := [2, 4, 6, 8] }
  resample := fun a _ _ => a

/-- A fallback-converter environment whose audioread backend yields a
three-channel file (one frame, samples 0, 3, 6) at the target rate. -/
def fbEnvThreeChan : FbEnv where
  librosaLoad := fun _ _ => .error "librosa failed"
  audioreadOpen := fun _ => .ok { samplerate := 16000, channels := 3, frames := [0, 3, 6] }
  resample := fun a _ _ => a

/-- A fallback-converter environment whose `librosa.load` succeeds. -/
def fbEnvLoadOk : FbEnv where
  librosaLoad := fun _ _ => .ok [(1 : ℚ)]
  audioreadOpen := fun _ => .error "unused"
  resample := fun a _ _ => a

/-- A subprocess environment in which `ffmpeg` works: version check and
conversions exit 0. -/
def sysEnvOk : SysEnv where
  run := fun _ => .completed 0 ""

/-- A subprocess environment in which `ffmpeg` is absent from the search
path: every invocation raises `FileNotFoundError`. -/
def sysEnvAbsent : SysEnv where
  run := fun _ => .fileNotFound

/-- A subprocess environment in which `ffmpeg -version` exits non-zero. -/
def sysEnvBroken : SysEnv where
  run := fun _ => .completed 127 "error while loading shared libraries"

/-! ## Helper lemmas -/

theorem fsWrite_ne (fs : Fs) (q : String) (c : Content) (p : String) (h : p ≠ q) :
    fsWrite fs q c p = fs p := by
  simp [fsWrite, h]

theorem fsWrite_fsWrite (fs : Fs) (q : String) (c : Content) :
    fsWrite (fsWrite fs q c) q c = fsWrite fs q c := by
  funext p
  by_cases h : p = q <;> simp [fsWrite, h]

/-- One case analysis characterising `convert_any_audio_to_wav` completely:
its output path, its attempt trace, its returned value, and its effect on the
filesystem, each as a function of the input file's contents. -/
theorem convert_any_spec (env : Env) (fs : Fs) (i : String) (o : Option String) (sr : Nat) :
    ((convert_any_audio_to_wav env fs i o sr).1.outputUsed = o.getD (withSuffix i ".wav"))
    ∧ ((convert_any_audio_to_wav env fs i o sr).1.attempts
        = specAttempts (backendSucceeds env (fs i) sr) (priorityOrder i))
    ∧ ((convert_any_audio_to_wav env fs i o sr).1.result
        = if canDecode env (fs i) i sr = true then some (o.getD (withSuffix i ".wav")) else none)
    ∧ ((convert_any_audio_to_wav env fs i o sr).2
        = match writtenContent env (fs i) i sr with
          | some c => fsWrite fs (o.getD (withSuffix i ".wav")) c
          | none => fs) := by
  unfold convert_any_audio_to_wav writtenContent canDecode priorityOrder backendSucceeds
  by_cases hm : strLower (pathSuffix i) = ".m4a"
  · cases hl : env.librosa (fs i) sr with
    | ok a => simp [hm, hl, specAttempts, exceptOk]
    | error e1 =>
        cases hp : env.pydub (fs i) sr with
        | ok a => simp [hm, hl, hp, specAttempts, exceptOk]
        | error e2 =>
            cases hf : env.ffmpeg (fs i) sr with
            | run rc stderr w =>
                by_cases hrc : rc = 0 <;>
                  simp [hm, hl, hp, hf, hrc, tryFfmpegStep, specAttempts, exceptOk,
                    ffmpegOkB, beq_iff_eq]
            | ex e3 =>
                simp [hm, hl, hp, hf, tryFfmpegStep, specAttempts, exceptOk, ffmpegOkB]
  · cases hl : env.librosa (fs i) sr with
    | ok a => simp [hm, hl, specAttempts, exceptOk]
    | error e1 =>
        cases hf : env.ffmpeg (fs i) sr with
        | run rc stderr w =>
            by_cases hrc : rc = 0 <;>
              simp [hm, hl, hf, hrc, tryFfmpegStep, specAttempts, exceptOk,
                ffmpegOkB, beq_iff_eq]
        | ex e3 =>
            simp [hm, hl, hf, tryFfmpegStep, specAttempts, exceptOk, ffmpegOkB]

/-- The returned `ConvResult` depends on the filesystem only through the input
file's contents. -/
theorem convert_any_fst (env : Env) (fs : Fs) (i : String) (o : Option String) (sr : Nat) :
    (convert_any_audio_to_wav env fs i o sr).1 = convResult env (fs i) i o sr := by
  unfold convert_any_audio_to_wav convResult
  by_cases hm : strLower (pathSuffix i) = ".m4a"
  · cases hl : env.librosa (fs i) sr with
    | ok a => simp [hm, hl]
    | error e1 =>
        cases hp : env.pydub (fs i) sr with
        | ok a => simp [hm, hl, hp]
        | error e2 =>
            cases hf : env.ffmpeg (fs i) sr with
            | run rc stderr w =>
                by_cases hrc : rc = 0 <;> simp [hm, hl, hp, hf, hrc, tryFfmpegStep]
            | ex e3 => simp [hm, hl, hp, hf, tryFfmpegStep]
  · cases hl : env.librosa (fs i) sr with
    | ok a => simp [hm, hl]
    | error e1 =>
        cases hf : env.ffmpeg (fs i) sr with
        | run rc stderr w =>
            by_cases hrc : rc = 0 <;> simp [hm, hl, hf, hrc, tryFfmpegStep]
        | ex e3 => simp [hm, hl, hf, tryFfmpegStep]

/-! ## Claim theorems -/

/-- C1: `convert_any_audio_to_wav` attempts the backend strategies in the
fixed priority order — librosa first, then pydub for `.m4a` inputs, then the
ffmpeg subprocess — stopping right after the first success (a strategy's
exception or non-zero exit moves on to the next), and returns the output path
exactly when some strategy in that order succeeds. -/
theorem convert_any_attempts_priority_first_success (env : Env) (fs : Fs) (i : String)
    (o : Option String) (sr : Nat) :
    ((convert_any_audio_to_wav env fs i o sr).1.attempts
        = specAttempts (backendSucceeds env (fs i) sr) (priorityOrder i))
    ∧ ((convert_any_audio_to_wav env fs i o sr).1.result
        = if (priorityOrder i).any (backendSucceeds env (fs i) sr) = true
          then some ((convert_any_audio_to_wav env fs i o sr).1.outputUsed)
          else none) :=
  ⟨(convert_any_spec env fs i o sr).2.1, by
    rw [(convert_any_spec env fs i o sr).2.2.1, (convert_any_spec env fs i o sr).1]
    rfl⟩

/-- C3: when no output path is provided, each of the three conversion
functions settles on the input path with its extension replaced by `".wav"`,
and `convert_any_audio_to_wav` writes nowhere else. -/
theorem default_output_path_replaces_extension (env : Env) (fbenv : FbEnv) (senv : SysEnv)
    (fs : Fs) (i : String) (sr : Nat) :
    ((convert_any_audio_to_wav env fs i none sr).1.outputUsed = withSuffix i ".wav")
    ∧ (∀ p, (convert_any_audio_to_wav env fs i none sr).2 p ≠ fs p → p = withSuffix i ".wav")
    ∧ ((convert_with_simple_fallback fbenv i none sr).outputUsed = withSuffix i ".wav")
    ∧ (check_ffmpeg senv = true →
        (convert_m4a_to_wav senv i none sr).outputUsed = some (withSuffix i ".wav")) := by
  refine ⟨(convert_any_spec env fs i none sr).1, ?_, ?_, ?_⟩
  · intro p hp
    rw [(convert_any_spec env fs i none sr).2.2.2] at hp
    cases hw : writtenContent env (fs i) i sr with
    | none => rw [hw] at hp; exact absurd rfl hp
    | some c =>
        rw [hw] at hp
        by_contra hne
        exact hp (fsWrite_ne fs _ c p (by simpa using hne))
  · unfold convert_with_simple_fallback
    rcases h : tryLibrosaBackends fbenv i (withSuffix i ".wav") sr fallback_backends
      with ⟨r?, ops⟩
    cases r? <;> simp [h]
  · intro h
    unfold convert_m4a_to_wav
    rw [h]
    simp only [Bool.true_eq_false, if_false, Option.getD_none, Option.isNone_none]
    cases hr : senv.run (ffmpegConvertCmd i (withSuffix i ".wav") sr) with
    | completed rc s => by_cases hrc : rc = 0 <;> simp [hrc]
    | fileNotFound => rfl

/-- Witness for C3: the ffmpeg-availability hypothesis holds in `sysEnvOk`,
and there `convert_m4a_to_wav` of `voice.m4a` uses `voice.wav`. -/
theorem default_output_path_replaces_extension_witness :
    check_ffmpeg sysEnvOk = true
    ∧ (convert_m4a_to_wav sysEnvOk "voice.m4a" none 16000).outputUsed
        = some (withSuffix "voice.m4a" ".wav") :=
  ⟨by decide,
   (default_output_path_replaces_extension envLibrosaOk fbEnvLoadOk sysEnvOk fs0
      "voice.m4a" 16000).2.2.2 (by decide)⟩

/-- C8: `check_ffmpeg` returns `True` exactly when `ffmpeg -version` completes
with return code 0, and an absent executable (`FileNotFoundError`) yields
`False` instead of an exception. -/
theorem check_ffmpeg_iff_clean_exit (env : SysEnv) :
    (check_ffmpeg env = true ↔ ∃ s, env.run ffmpegVersionCmd = .completed 0 s)
    ∧ (env.run ffmpegVersionCmd = .fileNotFound → check_ffmpeg env = false) := by
  unfold check_ffmpeg
  cases hr : env.run ffmpegVersionCmd with
  | completed rc s =>
      constructor
      · constructor
        · intro h
          exact ⟨s, by simpa using (beq_iff_eq.mp h : rc = 0) ▸ rfl⟩
        · rintro ⟨s', hs⟩
          cases hs
          rfl
      · intro h
        cases h
  | fileNotFound => simp

/-- Witness for C8: with `ffmpeg` missing from the search path the check
returns `False` (the `FileNotFoundError` hypothesis discharged concretely). -/
theorem check_ffmpeg_iff_clean_exit_witness : check_ffmpeg sysEnvAbsent = false :=
  (check_ffmpeg_iff_clean_exit sysEnvAbsent).2 rfl

/-- C10: when the ffmpeg availability check fails, `convert_m4a_to_wav`
returns `False` right after printing the installation instructions: the
default output path is not computed, no conversion subprocess is launched, and
no output file is written. -/
theorem no_effects_when_ffmpeg_missing (env : SysEnv) (i : String) (o : Option String)
    (sr : Nat) (h : check_ffmpeg env = false) :
    convert_m4a_to_wav env i o sr
      = { success := false, printedInstructions := true, defaultComputed := false,
          outputUsed := none, ranConversion := false, wrote := none } := by
  unfold convert_m4a_to_wav
  rw [h]
  rfl

/-- Witness for C10: concretely, with the executable absent the check fails
and the call has none of the conversion effects. -/
theorem no_effects_when_ffmpeg_missing_witness :
    check_ffmpeg sysEnvAbsent = false
    ∧ convert_m4a_to_wav sysEnvAbsent "song.m4a" none 16000
        = { success := false, printedInstructions := true, defaultComputed := false,
            outputUsed := none, ranConversion := false, wrote := none } :=
  ⟨by decide, no_effects_when_ffmpeg_missing sysEnvAbsent "song.m4a" none 16000 (by decide)⟩

/-- C2 fails on the code: on an input `librosa.load` cannot decode, the
fallback converter executes the identical `librosa.load(input_path, sr=16000)`
decode twice — once per entry of `backends = ['soundfile', 'audioread']`,
whose loop variable is ignored by the loop body — so the failed backend is
retried. -/
theorem simple_fallback_retries_librosa :
    (convert_with_simple_fallback fbEnvStereo "in.m4a" none 16000).ops
      = [.librosaLoadOp "in.m4a" 16000, .librosaLoadOp "in.m4a" 16000,
         .audioreadOpenOp "in.m4a"]
    ∧ ((convert_with_simple_fallback fbEnvStereo "in.m4a" none 16000).ops.count
        (.librosaLoadOp "in.m4a" 16000)) = 2 := by
  decide

/-- C6 as stated is false: when every backend fails, the value returned to the
caller is the constant sentinel `None` — two runs whose backends fail with
different error messages return the very same value, so the returned failure
value cannot enumerate the backends' error messages (those only reach the
printed log, which does differ). -/
theorem failure_value_carries_no_error_messages :
    ((convert_any_audio_to_wav envAllFail fs0 "voice.m4a" none 16000).1.attempts
        = [.librosa, .pydub, .ffmpeg])
    ∧ (convert_any_audio_to_wav envAllFail fs0 "voice.m4a" none 16000).1.result = none
    ∧ (convert_any_audio_to_wav envAllFail2 fs0 "voice.m4a" none 16000).1.result
        = (convert_any_audio_to_wav envAllFail fs0 "voice.m4a" none 16000).1.result
    ∧ (convert_any_audio_to_wav envAllFail fs0 "voice.m4a" none 16000).1.log
        ≠ (convert_any_audio_to_wav envAllFail2 fs0 "voice.m4a" none 16000).1.log := by
  decide

/-- C6 (amended): when every backend fails, `convert_any_audio_to_wav`
attempts the whole priority order, prints each backend's error message and a
final all-methods-failed message, and returns the sentinel `None`. -/
theorem all_backends_fail_logs_errors_returns_none (env : Env) (fs : Fs) (i : String)
    (o : Option String) (sr : Nat)
    (hL : exceptOk (env.librosa (fs i) sr) = false)
    (hP : strLower (pathSuffix i) = ".m4a" → exceptOk (env.pydub (fs i) sr) = false)
    (hF : ffmpegOkB env (fs i) sr = false) :
    ((convert_any_audio_to_wav env fs i o sr).1.attempts = priorityOrder i)
    ∧ ((convert_any_audio_to_wav env fs i o sr).1.result = none)
    ∧ (∃ e, env.librosa (fs i) sr = .error e
        ∧ .librosaFailed e ∈ (convert_any_audio_to_wav env fs i o sr).1.log)
    ∧ (strLower (pathSuffix i) = ".m4a" → ∃ e, env.pydub (fs i) sr = .error e
        ∧ .pydubFailed e ∈ (convert_any_audio_to_wav env fs i o sr).1.log)
    ∧ ((∃ s, .ffmpegFailed s ∈ (convert_any_audio_to_wav env fs i o sr).1.log)
        ∨ (∃ m, .ffmpegNotAvailable m ∈ (convert_any_audio_to_wav env fs i o sr).1.log))
    ∧ (.allFailed i ∈ (convert_any_audio_to_wav env fs i o sr).1.log) := by
  unfold convert_any_audio_to_wav
  cases hl : env.librosa (fs i) sr with
  | ok a => rw [hl] at hL; simp [exceptOk] at hL
  | error e1 =>
      by_cases hm : strLower (pathSuffix i) = ".m4a"
      · cases hp : env.pydub (fs i) sr with
        | ok a =>
            have hpf := hP hm
            rw [hp] at hpf
            simp [exceptOk] at hpf
        | error e2 =>
            cases hf : env.ffmpeg (fs i) sr with
            | run rc stderr w =>
                have hrc : ¬ rc = 0 := by simpa [ffmpegOkB, hf] using hF
                simp [hm, hl, hp, hf, hrc, tryFfmpegStep, priorityOrder]
            | ex e3 => simp [hm, hl, hp, hf, tryFfmpegStep, priorityOrder]
      · cases hf : env.ffmpeg (fs i) sr with
        | run rc stderr w =>
            have hrc : ¬ rc = 0 := by simpa [ffmpegOkB, hf] using hF
            simp [hm, hl, hf, hrc, tryFfmpegStep, priorityOrder]
        | ex e3 => simp [hm, hl, hf, tryFfmpegStep, priorityOrder]

/-- Witness for C6 (amended): in `envAllFail` every hypothesis holds for
`voice.m4a` and the final all-methods-failed message is printed. -/
theorem all_backends_fail_logs_errors_returns_none_witness :
    exceptOk (envAllFail.librosa (fs0 "voice.m4a") 16000) = false
    ∧ ffmpegOkB envAllFail (fs0 "voice.m4a") 16000 = false
    ∧ LogMsg.allFailed "voice.m4a"
        ∈ (convert_any_audio_to_wav envAllFail fs0 "voice.m4a" none 16000).1.log :=
  ⟨by decide, by decide,
   (all_backends_fail_logs_errors_returns_none envAllFail fs0 "voice.m4a" none 16000
      (by decide) (fun _ => by decide) (by decide)).2.2.2.2.2⟩

/-- C9 as stated is false: with the default output path, converting `a.wav`
writes over the input itself, so a second identical call re-decodes the
overwritten file and can produce a different WAV — here both calls succeed
with the same parameters yet the file contents left at `a.wav` differ. -/
theorem convert_twice_differs_when_output_is_input :
    ((convert_any_audio_to_wav envSelfClobber fsZero "a.wav" none 16000).1.result
        = some "a.wav")
    ∧ ((convert_any_audio_to_wav envSelfClobber
          ((convert_any_audio_to_wav envSelfClobber fsZero "a.wav" none 16000).2)
          "a.wav" none 16000).1.result = some "a.wav")
    ∧ ((convert_any_audio_to_wav envSelfClobber fsZero "a.wav" none 16000).2 "a.wav"
        ≠ (convert_any_audio_to_wav envSelfClobber
            ((convert_any_audio_to_wav envSelfClobber fsZero "a.wav" none 16000).2)
            "a.wav" none 16000).2 "a.wav") := by
  decide

/-- C9 (amended): provided the output path in use differs from the input path
(so the first conversion leaves the input untouched), calling
`convert_any_audio_to_wav` twice with the same input path, output path and
target sample rate returns the same value and leaves the very same file
contents — the second call writes a sample-identical WAV. -/
theorem convert_twice_identical_when_output_not_input (env : Env) (fs : Fs) (i : String)
    (o : Option String) (sr : Nat)
    (h : o.getD (withSuffix i ".wav") ≠ i) :
    convert_any_audio_to_wav env ((convert_any_audio_to_wav env fs i o sr).2) i o sr
      = convert_any_audio_to_wav env fs i o sr := by
  have hc : (convert_any_audio_to_wav env fs i o sr).2 i = fs i := by
    rw [(convert_any_spec env fs i o sr).2.2.2]
    cases hw : writtenContent env (fs i) i sr with
    | none => rfl
    | some c => exact fsWrite_ne fs _ c i (Ne.symm h)
  refine Prod.ext ?_ ?_
  · rw [convert_any_fst, convert_any_fst, hc]
  · have h2 := (convert_any_spec env ((convert_any_audio_to_wav env fs i o sr).2) i o sr).2.2.2
    rw [hc] at h2
    rw [h2]
    cases hw : writtenContent env (fs i) i sr with
    | none => rfl
    | some c =>
        have h1 := (convert_any_spec env fs i o sr).2.2.2
        rw [hw] at h1
        rw [h1]
        exact fsWrite_fsWrite fs _ c

/-- Witness for C9 (amended): `voice.m4a` defaults to `voice.wav`, distinct
from the input, and two runs agree exactly. -/
theorem convert_twice_identical_when_output_not_input_witness :
    (none : Option String).getD (withSuffix "voice.m4a" ".wav") ≠ "voice.m4a"
    ∧ convert_any_audio_to_wav envLibrosaOk
        ((convert_any_audio_to_wav envLibrosaOk fsZero "voice.m4a" none 16000).2)
        "voice.m4a" none 16000
      = convert_any_audio_to_wav envLibrosaOk fsZero "voice.m4a" none 16000 :=
  ⟨by decide,
   convert_twice_identical_when_output_not_input envLibrosaOk fsZero "voice.m4a" none 16000
     (by decide)⟩

/-- `specChannelMean` at two channels, with the inner sum spelt out. -/
theorem specChannelMean_two (xs : List ℚ) :
    specChannelMean 2 xs
      = (List.range (xs.length / 2)).map
          (fun j => (xs.getD (2 * j) 0 + xs.getD (2 * j + 1) 0) / 2) := by
  unfold specChannelMean
  refine List.map_congr_left ?_
  intro j _
  have h2 : List.range 2 = [0, 1] := by decide
  rw [h2]
  push_cast
  simp

/-- Pairwise averaging computes, index by index, the two-channel mean. -/
theorem stereoMeanQ_aux : ∀ (n : Nat) (xs : List ℚ), xs.length = 2 * n →
    stereoMeanQ xs
      = (List.range n).map (fun j => (xs.getD (2 * j) 0 + xs.getD (2 * j + 1) 0) / 2)
  | 0, [], _ => by simp [stereoMeanQ]
  | 0, a :: xs, h => by simp at h
  | n + 1, [], h => by
      simp only [List.length_nil] at h
      omega
  | n + 1, [a], h => by
      simp only [List.length_cons, List.length_nil] at h
      omega
  | n + 1, a :: b :: rest, h => by
      have hr : rest.length = 2 * n := by
        simp only [List.length_cons] at h
        omega
      have ihr := stereoMeanQ_aux n rest hr
      show (a + b) / 2 :: stereoMeanQ rest = _
      rw [List.range_succ_eq_map, List.map_cons, List.map_map, List.cons_eq_cons]
      refine ⟨by simp, ?_⟩
      rw [ihr]
      refine List.map_congr_left ?_
      intro j _
      have e1 : 2 * (j + 1) = 2 * j + 1 + 1 := by ring
      have e2 : 2 * (j + 1) + 1 = 2 * j + 1 + 1 + 1 := by ring
      simp only [Function.comp, e1, e2, List.getD_cons_succ]

/-- The code's stereo `reshape` + `mean(axis=1)` equals the spec's
across-channel arithmetic mean at two channels. -/
theorem stereoMeanQ_eq_specChannelMean (xs : List ℚ) (h : xs.length % 2 = 0) :
    stereoMeanQ xs = specChannelMean 2 xs := by
  obtain ⟨n, hn⟩ : ∃ n, xs.length = 2 * n := ⟨xs.length / 2, by omega⟩
  have hd : xs.length / 2 = n := by omega
  rw [specChannelMean_two, hd, stereoMeanQ_aux n xs hn]

/-- C4: in the audioread-based conversion, when the native rate equals the
target rate the resampler is not invoked and the down-mixed samples are
written unchanged; conversely the resampler runs only when the rates differ. -/
theorem audioread_resample_only_when_rates_differ (env : FbEnv) (i : String)
    (o : Option String) (sr : Nat) (f : ArFile)
    (hopen : env.audioreadOpen i = .ok f) :
    (f.samplerate = sr →
      (convert_m4a_with_audioread env i o sr).resampled = false
      ∧ ∀ audio, (convert_m4a_with_audioread env i o sr).downmixed = some audio →
          (convert_m4a_with_audioread env i o sr).written
            = [(o.getD (withSuffix i ".wav"), audio)])
    ∧ ((convert_m4a_with_audioread env i o sr).resampled = true → f.samplerate ≠ sr) := by
  unfold convert_m4a_with_audioread
  rw [hopen]
  by_cases hc2 : f.channels = 2
  · by_cases heven : f.frames.length % 2 = 0
    · by_cases hr : f.samplerate = sr <;> simp [hc2, heven, hr]
    · have h1 : f.frames.length % 2 = 1 := by omega
      simp [hc2, h1]
  · by_cases hr : f.samplerate = sr <;> simp [hc2, hr]

/-- Witness for C4: a stereo file already at 16000 Hz is not resampled, and
its down-mixed samples are written as they are. -/
theorem audioread_resample_only_when_rates_differ_witness :
    (convert_m4a_with_audioread fbEnvStereo "in.m4a" none 16000).resampled = false
    ∧ ∀ audio,
        (convert_m4a_with_audioread fbEnvStereo "in.m4a" none 16000).downmixed = some audio →
        (convert_m4a_with_audioread fbEnvStereo "in.m4a" none 16000).written
          = [((none : Option String).getD (withSuffix "in.m4a" ".wav"), audio)] :=
  (audioread_resample_only_when_rates_differ fbEnvStereo "in.m4a" none 16000
      { samplerate := 16000, channels := 2, frames := [2, 4, 6, 8] } rfl).1 rfl

/-- C5 as stated is false: a three-channel input is not down-mixed at all —
the `channels == 2` branch is the only one that averages, so the interleaved
samples are written unchanged instead of the across-channel mean. -/
theorem downmix_not_mean_for_three_channels :
    ((convert_m4a_with_audioread fbEnvThreeChan "in.m4a" none 16000).downmixed
        = some ([0, 3, 6].map int16ToFloat))
    ∧ (convert_m4a_with_audioread fbEnvThreeChan "in.m4a" none 16000).written
        ≠ [("in.wav", specChannelMean 3 ([0, 3, 6].map int16ToFloat))] := by
  have hw : withSuffix "in.m4a" ".wav" = "in.wav" := by decide
  have h1 : convert_m4a_with_audioread fbEnvThreeChan "in.m4a" none 16000
      = { result := some "in.wav", resampled := false,
          downmixed := some ([0, 3, 6].map int16ToFloat),
          written := [("in.wav", [0, 3, 6].map int16ToFloat)] } := by
    unfold convert_m4a_with_audioread fbEnvThreeChan
    simp [hw]
  refine ⟨by rw [h1], ?_⟩
  rw [h1]
  intro hcontra
  have h3 := congrArg (fun l : List (String × List ℚ) => l.headI.2.length) hcontra
  simp [specChannelMean] at h3

/-- C5 (amended): for a two-channel (stereo) input decoded by the audioread
backend, the mono down-mix is exactly the spec's across-channel arithmetic
mean; inputs with any other channel count are not down-mixed. -/
theorem stereo_downmix_is_channel_mean (env : FbEnv) (i : String) (o : Option String)
    (sr : Nat) (f : ArFile) (hopen : env.audioreadOpen i = .ok f)
    (h2 : f.channels = 2) (heven : f.frames.length % 2 = 0) :
    (convert_m4a_with_audioread env i o sr).downmixed
      = some (specChannelMean 2 (f.frames.map int16ToFloat)) := by
  unfold convert_m4a_with_audioread
  rw [hopen]
  have hlen : (f.frames.map int16ToFloat).length % 2 = 0 := by simpa using heven
  by_cases hr : f.samplerate = sr <;>
    simp [h2, heven, hr, stereoMeanQ_eq_specChannelMean _ hlen]

/-- Witness for C5 (amended): the stereo example's down-mix equals the
across-channel mean. -/
theorem stereo_downmix_is_channel_mean_witness :
    (convert_m4a_with_audioread fbEnvStereo "in.m4a" none 16000).downmixed
      = some (specChannelMean 2 ([2, 4, 6, 8].map int16ToFloat)) :=
  stereo_downmix_is_channel_mean fbEnvStereo "in.m4a" none 16000
    { samplerate := 16000, channels := 2, frames := [2, 4, 6, 8] } rfl rfl rfl

/-- The batch loop characterised: provided no per-file output path collides
with a *later* input file (a file overwriting itself is fine — it is decoded
before its own output is written), every file is processed in order and its
entry records success exactly when some backend decodes its original
contents. -/
theorem runBatch_spec (env : Env) (sr : Nat) (out_dir : String) (fs : Fs)
    (l : List String) :
    ∀ fs' : Fs,
      (∀ f ∈ l, fs' f = fs f) →
      l.Pairwise (fun f g => wavOut out_dir f ≠ g) →
      (runBatch env sr out_dir fs' l).1
        = l.map (fun f =>
            (f, if canDecode env (fs f) f sr = true
                then some (wavOut out_dir f) else none)) := by
  induction l with
  | nil => intro fs' _ _; rfl
  | cons f rest ih =>
      intro fs' hinv hsep
      rw [List.pairwise_cons] at hsep
      obtain ⟨hhead, htail⟩ := hsep
      have hf : fs' f = fs f := hinv f (by simp)
      have hres := (convert_any_spec env fs' f (some (wavOut out_dir f)) sr).2.2.1
      rw [hf] at hres
      have hfs2 := (convert_any_spec env fs' f (some (wavOut out_dir f)) sr).2.2.2
      have hinv' : ∀ g ∈ rest,
          (convert_any_audio_to_wav env fs' f (some (wavOut out_dir f)) sr).2 g = fs g := by
        intro g hg
        rw [hfs2]
        have hne : g ≠ wavOut out_dir f := fun hh => (hhead g hg) hh.symm
        cases hw : writtenContent env (fs' f) f sr with
        | none => exact hinv g (by simp [hg])
        | some c =>
            refine (fsWrite_ne fs' _ c g (by simpa using hne)).trans (hinv g (by simp [hg]))
      show ((f, (convert_any_audio_to_wav env fs' f (some (wavOut out_dir f)) sr).1.result)
              :: (runBatch env sr out_dir
                    (convert_any_audio_to_wav env fs' f (some (wavOut out_dir f)) sr).2
                    rest).1)
          = _
      rw [List.map_cons, hres, ih _ hinv' htail]
      simp

/-- C7: the batch driver invokes the per-file converter on every matched file
— the result list pairs each matched file, in order, with its outcome, so a
failure never stops the loop — and, when no per-file output path collides
with an input file processed later (a file overwriting itself is allowed),
the successes are exactly the files some backend can decode and the failures
exactly the rest. -/
theorem batch_converts_all_files (env : Env) (fs : Fs) (files : List String)
    (input_dir : String) (output_dir? : Option String) (sr : Nat)
    (hsep : ((audioFiles files).map (joinPath input_dir)).Pairwise
            (fun f g => wavOut (output_dir?.getD input_dir) f ≠ g)) :
    ((convert_directory_librosa env fs files input_dir output_dir? sr).1
        = ((audioFiles files).map (joinPath input_dir)).map
            (fun f => (f, if canDecode env (fs f) f sr = true
                          then some (wavOut (output_dir?.getD input_dir) f) else none)))
    ∧ (((convert_directory_librosa env fs files input_dir output_dir? sr).1.countP
          (fun r => r.2.isSome))
        = ((audioFiles files).map (joinPath input_dir)).countP
            (fun f => canDecode env (fs f) f sr))
    ∧ (((convert_directory_librosa env fs files input_dir output_dir? sr).1.countP
          (fun r => r.2.isNone))
        = ((audioFiles files).map (joinPath input_dir)).countP
            (fun f => !(canDecode env (fs f) f sr))) := by
  have hmain : (convert_directory_librosa env fs files input_dir output_dir? sr).1
      = ((audioFiles files).map (joinPath input_dir)).map
          (fun f => (f, if canDecode env (fs f) f sr = true
                        then some (wavOut (output_dir?.getD input_dir) f) else none)) :=
    runBatch_spec env sr (output_dir?.getD input_dir) fs
      ((audioFiles files).map (joinPath input_dir)) fs (fun _ _ => rfl) hsep
  refine ⟨hmain, ?_, ?_⟩
  · rw [hmain, List.countP_map]
    refine List.countP_congr ?_
    intro f _
    by_cases hc : canDecode env (fs f) f sr = true <;> simp [hc, Function.comp]
  · rw [hmain, List.countP_map]
    refine List.countP_congr ?_
    intro f _
    by_cases hc : canDecode env (fs f) f sr = true <;> simp [hc, Function.comp]

/-- Witness for C7: a directory with a decodable and an undecodable `.m4a`,
a dot-initial `._x.m4a` (which `Path.glob` does match), and an `s.wav` whose
default output path is itself; the pairwise hypothesis holds and the driver
processes all four files. -/
theorem batch_converts_all_files_witness :
    ((audioFiles ["good.m4a", "bad.m4a", "._x.m4a", "s.wav"]).map (joinPath "d")).Pairwise
        (fun f g => wavOut ((none : Option String).getD "d") f ≠ g)
    ∧ (convert_directory_librosa envContentPicky fsPicky
          ["good.m4a", "bad.m4a", "._x.m4a", "s.wav"] "d" none 16000).1
        = ((audioFiles ["good.m4a", "bad.m4a", "._x.m4a", "s.wav"]).map (joinPath "d")).map
            (fun f => (f, if canDecode envContentPicky (fsPicky f) f 16000 = true
                          then some (wavOut ((none : Option String).getD "d") f)
                          else none)) :=
  ⟨by decide,
   (batch_converts_all_files envContentPicky fsPicky
      ["good.m4a", "bad.m4a", "._x.m4a", "s.wav"] "d" none 16000 (by decide)).1⟩

end QuickVC
